import Mathlib

/-!
Shallow embedding of the BlitzWare Node SDK Express middleware
(src/middleware.ts: blitzwareAuth, requireBlitzwareSession,
blitzwareCallback, blitzwareLogin, blitzwareLogout) in Lean 4.

The session bag is a JS object accessed with configurable string keys;
we model it as an association list from keys to JS values.  Network
round trips (validateTokenAndGetUser, refreshToken, getUserInfo,
handleCallback, logout) are modelled as an oracle record of functions
returning `Except`, and each middleware is a pure function from
(config, oracle, request) to an outcome consisting of the final
session, the outward response action, the request attachments and the
trace of network calls made.
-/

namespace BlitzWare

/-- Modelled from the spec: `BlitzWareUser` / UserProfile (`types.ts` is not
under src/): `id`, `username`, optional `email`, optional `roles`.  The
middleware treats the user object as opaque. -/
structure BlitzWareUser where
  id : String
  username : String
  email : Option String
  roles : Option (List String)
  deriving DecidableEq, Repr

/-- A JavaScript value as stored in a session field: `undefined` (absent
property), `null` (explicitly cleared), a string (tokens, state,
verifier) or a user object. -/
inductive JSVal where
  | undef
  | null
  | str (s : String)
  | user (u : BlitzWareUser)
  deriving DecidableEq, Repr

/-- JS truthiness for the values that occur in session fields:
`undefined` and `null` are falsy, a string is truthy iff non-empty,
an object is always truthy.  This is what guards like
`if (!accessToken)` and `if (session[refreshTokenProperty])` test. -/
def truthy : JSVal → Bool
  | .undef => false
  | .null => false
  | .str s => decide (s ≠ "")
  | .user _ => true

/-- JS truthiness of an optional string field such as
`tokenResponse.refresh_token`: absent or empty is falsy. -/
def optTruthy : Option String → Bool
  | none => false
  | some s => decide (s ≠ "")

/-- The session bag: a JS object with string keys.  Reading an absent
property yields `undefined`; assignment replaces or inserts. -/
abbrev Session := List (String × JSVal)

/-- Property read `session[key]`. -/
def sget : Session → String → JSVal
  | [], _ => .undef
  | (k, v) :: rest, key => if k = key then v else sget rest key

/-- Property write `session[key] = v`. -/
def sset : Session → String → JSVal → Session
  | [], key, v => [(key, v)]
  | (k, w) :: rest, key, v =>
    if k = key then (k, v) :: rest else (k, w) :: sset rest key v

/-- Modelled from the spec: the fields of a token endpoint response
(`types.ts` is not under src/).  The middleware reads only
`access_token` and `refresh_token`; the remaining fields are carried
for fidelity but never inspected. -/
structure TokenResponse where
  access_token : String
  token_type : String
  expires_in : Nat
  scope : String
  refresh_token : Option String
  deriving DecidableEq, Repr

/-- Modelled from the spec: an error reaching a middleware catch block is
either a structured `BlitzWareAuthError` (machine-readable `code`,
human `message`) or some other JS error.  This is what the
`error instanceof BlitzWareAuthError` test in `blitzwareCallback`
distinguishes. -/
inductive JSError where
  | bw (code : String) (message : String)
  | other (message : String)
  deriving DecidableEq, Repr

/-- Raw callback query parameters (`req.query`); the middleware passes
them to `handleCallback` without inspecting them itself. -/
abbrev Query := List (String × String)

/-- The protocol-client instance as seen by the middleware: each network
operation is an oracle returning success or a thrown error, plus the
two configuration accessors `getBaseUrl` and `getConfig().clientId`
used by the logout handler. -/
structure BlitzWareAuthClient where
  validateTokenAndGetUser : JSVal → Except JSError BlitzWareUser
  refreshToken : JSVal → Except JSError TokenResponse
  getUserInfo : String → Except JSError BlitzWareUser
  handleCallback : Query → JSVal → JSVal → Except JSError TokenResponse
  logoutRemote : Except JSError Unit
  baseUrl : String
  clientId : String

/-- One recorded network round trip made by a middleware run. -/
inductive NetCall where
  | validate (token : JSVal)
  | refresh (token : JSVal)
  | userInfo (token : String)
  | callbackExchange
  | logoutCall
  deriving DecidableEq, Repr

/-- The incoming request: `req.session` may be entirely absent
(`undefined`), `req.query` carries the callback parameters, and
`req.protocol`/`req.get("host")` supply the base for resolving
relative redirect URLs. -/
structure Req where
  session : Option Session
  query : Query
  protocol : String
  host : String
  deriving DecidableEq, Repr

/-- The outward response action taken by a middleware.  `logoutPage`
denotes the HTML page rendered by the front-channel logout branch
(middleware source lines 400-432): a page that POSTs
`client_id = clientId` to `logoutUrl` and, in every branch of its
script (fetch success, fetch failure, exception fallback), navigates
the browser to `redirectUrl`. -/
inductive Action where
  | next
  | redirect (url : String)
  | send (status : Nat) (body : String)
  | logoutPage (logoutUrl : String) (clientId : String) (redirectUrl : String)
  deriving DecidableEq, Repr

/-- The observable result of running one middleware on one request:
final session (mirroring `req.session`), response action, the
`req.blitzwareUser` / `req.blitzwareAccessToken` attachments (none
when never assigned), and the network calls made, in order. -/
structure Outcome where
  session : Option Session
  action : Action
  blitzwareUser : Option JSVal
  blitzwareAccessToken : Option JSVal
  calls : List NetCall
  deriving DecidableEq, Repr

/-- The config record `BlitzWareMiddlewareConfig` after destructuring with
defaults (source lines 61-69). -/
structure BlitzWareMiddlewareConfig where
  accessTokenProperty : String
  refreshTokenProperty : String
  userProperty : String
  autoRefresh : Bool
  loginUrl : String
  attachUser : Bool
  deriving DecidableEq, Repr

/-- The defaults of `BlitzWareMiddlewareConfig`. -/
def defaultAuthConfig : BlitzWareMiddlewareConfig :=
  ⟨"accessToken", "refreshToken", "user", true, "/login", true⟩

/-- Sets the three token/user session fields to `null`, as done by every
clear-and-redirect branch of the middleware (lines 133-135, 141-143)
and by the logout handler (lines 389-391). -/
def clearAuthFields (s : Session) (atp rtp up : String) : Session :=
  sset (sset (sset s atp .null) rtp .null) up .null

/-- Embeds `blitzwareAuth` (source lines 60-152), the token-validated
middleware.  The early `return res.redirect(loginUrl)` on a falsy
access token is rendered as the else-branch of `truthy accessToken`.
The outer catch at line 147 is unreachable in this model since every
oracle failure is handled by the inner catches. -/
def blitzwareAuth (cfg : BlitzWareMiddlewareConfig) (bw : BlitzWareAuthClient)
    (req : Req) : Outcome :=
  match req.session with
  | none => ⟨none, .send 500 "Session configuration error", none, none, []⟩
  | some s =>
    let accessToken := sget s cfg.accessTokenProperty
    if truthy accessToken then
      match bw.validateTokenAndGetUser accessToken with
      | .ok user =>
        ⟨some (sset s cfg.userProperty (.user user)), .next,
          if cfg.attachUser then some (.user user) else none,
          if cfg.attachUser then some accessToken else none,
          [.validate accessToken]⟩
      | .error _ =>
        if cfg.autoRefresh && truthy (sget s cfg.refreshTokenProperty) then
          let rtVal := sget s cfg.refreshTokenProperty
          match bw.refreshToken rtVal with
          | .ok tr =>
            let s1 := sset s cfg.accessTokenProperty (.str tr.access_token)
            let s2 := if optTruthy tr.refresh_token then
                sset s1 cfg.refreshTokenProperty (.str (tr.refresh_token.getD ""))
              else s1
            match bw.getUserInfo tr.access_token with
            | .ok user =>
              ⟨some (sset s2 cfg.userProperty (.user user)), .next,
                if cfg.attachUser then some (.user user) else none,
                if cfg.attachUser then some (.str tr.access_token) else none,
                [.validate accessToken, .refresh rtVal, .userInfo tr.access_token]⟩
            | .error _ =>
              -- the catch at line 130 also catches this getUserInfo failure
              ⟨some (clearAuthFields s2 cfg.accessTokenProperty
                  cfg.refreshTokenProperty cfg.userProperty),
                .redirect cfg.loginUrl, none, none,
                [.validate accessToken, .refresh rtVal, .userInfo tr.access_token]⟩
          | .error _ =>
            ⟨some (clearAuthFields s cfg.accessTokenProperty
                cfg.refreshTokenProperty cfg.userProperty),
              .redirect cfg.loginUrl, none, none,
              [.validate accessToken, .refresh rtVal]⟩
        else
          ⟨some (clearAuthFields s cfg.accessTokenProperty
              cfg.refreshTokenProperty cfg.userProperty),
            .redirect cfg.loginUrl, none, none,
            [.validate accessToken]⟩
    else
      ⟨some s, .redirect cfg.loginUrl, none, none, []⟩

/-- The config of `requireBlitzwareSession` after destructuring with
defaults (source lines 169-173). -/
structure RequireSessionConfig where
  userProperty : String
  loginUrl : String
  attachUser : Bool
  deriving DecidableEq, Repr

/-- The defaults of `RequireSessionConfig`. -/
def defaultRequireSessionConfig : RequireSessionConfig :=
  ⟨"user", "/login", true⟩

/-- Embeds `requireBlitzwareSession` (source lines 163-198), the
session-only middleware: no network call ever. -/
def requireBlitzwareSession (cfg : RequireSessionConfig) (req : Req) : Outcome :=
  match req.session with
  | none => ⟨none, .send 500 "Session configuration error", none, none, []⟩
  | some s =>
    let user := sget s cfg.userProperty
    if truthy user then
      ⟨some s, .next, if cfg.attachUser then some user else none, none, []⟩
    else
      ⟨some s, .redirect cfg.loginUrl, none, none, []⟩

/-- Query-parameter list of a URL, in order, as manipulated by
`URLSearchParams`. -/
abbrev Params := List (String × String)

/-- Parse a raw query string into parameter pairs: split on `&`, skip
empty segments, split each segment at its first `=` (segments with no
`=` get the empty value), mirroring `URLSearchParams` parsing for the
un-encoded inputs the middleware produces. -/
def parseQueryString (q : String) : Params :=
  (q.splitOn "&").filterMap fun piece =>
    if piece = "" then none
    else match piece.splitOn "=" with
      | [] => none
      | k :: rest => some (k, String.intercalate "=" rest)

/-- Drop every pair with the given key. -/
def removeParam : Params → String → Params
  | [], _ => []
  | (k1, v1) :: rest, k =>
    if k1 = k then removeParam rest k else (k1, v1) :: removeParam rest k

/-- Models `URLSearchParams.set key value`: replace the value of the first pair
with this key and drop any later pairs with it; append when absent. -/
def setParam : Params → String → String → Params
  | [], k, v => [(k, v)]
  | (k1, v1) :: rest, k, v =>
    if k1 = k then (k, v) :: removeParam rest k
    else (k1, v1) :: setParam rest k v

/-- First value under a key, as `URLSearchParams.get`. -/
def getParam : Params → String → Option String
  | [], _ => none
  | (k1, v1) :: rest, k => if k1 = k then some v1 else getParam rest k

/-- A URL split into everything before the first `?` and its parsed
query parameters. -/
structure UrlModel where
  base : String
  params : Params
  deriving DecidableEq, Repr

/-- Whether a URL string is absolute (carries a scheme), in which case
`new URL(rel, base)` ignores the base. -/
def hasScheme (u : String) : Bool := decide (2 ≤ (u.splitOn "://").length)

/-- Models `new URL(rel, origin)` for the inputs the callback handler builds:
`rel` is either an absolute URL or a site-relative path starting with
`/`, and `origin` is `req.protocol + "://" + req.host`; the query
part is parsed into parameters.  (Percent-encoding is not modelled:
every value the handler sets is a plain error-code token.) -/
def resolveUrl (rel : String) (origin : String) : UrlModel :=
  let full := if hasScheme rel then rel else origin ++ rel
  match full.splitOn "?" with
  | [] => ⟨full, []⟩
  | b :: rest => ⟨b, parseQueryString (String.intercalate "?" rest)⟩

/-- Models `url.toString()`: re-serialize base and parameters. -/
def urlToString (u : UrlModel) : String :=
  match u.params with
  | [] => u.base
  | ps => u.base ++ "?" ++
      String.intercalate "&" (ps.map (fun p => p.1 ++ "=" ++ p.2))

/-- The origin used as URL-resolution base in the callback handler
(line 274). -/
def reqOrigin (req : Req) : String := req.protocol ++ "://" ++ req.host

/-- The redirect URL built by the callback handler's catch block
(lines 270-282): resolve `errorRedirect` against the request origin,
then set `error_code = code` for a `BlitzWareAuthError` and
`error = auth_failed` for any other error.  Note the URL depends on a
structured error only through its `code`, never its `message`. -/
def callbackErrorUrl (errorRedirect : String) (req : Req) (e : JSError) : UrlModel :=
  let u := resolveUrl errorRedirect (reqOrigin req)
  match e with
  | .bw code _ => ⟨u.base, setParam u.params "error_code" code⟩
  | .other _ => ⟨u.base, setParam u.params "error" "auth_failed"⟩

/-- The config of `blitzwareCallback` after destructuring with defaults
(source lines 219-228). -/
structure CallbackConfig where
  successRedirect : String
  errorRedirect : String
  accessTokenProperty : String
  refreshTokenProperty : String
  userProperty : String
  stateProperty : String
  codeVerifierProperty : String
  deriving DecidableEq, Repr

/-- The defaults of `CallbackConfig`. -/
def defaultCallbackConfig : CallbackConfig :=
  ⟨"/", "/login?error=auth_failed", "accessToken", "refreshToken", "user",
    "oauthState", "codeVerifier"⟩

/-- Embeds `blitzwareCallback` (source lines 208-285), the OAuth callback route
handler.  On the success path it stores the tokens, fetches and
stores the user, clears the one-time state/verifier fields and
redirects to `successRedirect`; any thrown error lands in the catch
block, which only builds the error redirect — in particular a
`getUserInfo` failure leaves the tokens already written and the
state/verifier fields untouched. -/
def blitzwareCallback (cfg : CallbackConfig) (bw : BlitzWareAuthClient)
    (req : Req) : Outcome :=
  match req.session with
  | none => ⟨none, .send 500 "Session configuration error", none, none, []⟩
  | some s =>
    let expectedState := sget s cfg.stateProperty
    let codeVerifier := sget s cfg.codeVerifierProperty
    match bw.handleCallback req.query expectedState codeVerifier with
    | .ok tr =>
      let s1 := sset s cfg.accessTokenProperty (.str tr.access_token)
      let s2 := if optTruthy tr.refresh_token then
          sset s1 cfg.refreshTokenProperty (.str (tr.refresh_token.getD ""))
        else s1
      match bw.getUserInfo tr.access_token with
      | .ok user =>
        let s3 := sset s2 cfg.userProperty (.user user)
        let s4 := sset s3 cfg.stateProperty .null
        let s5 := sset s4 cfg.codeVerifierProperty .null
        ⟨some s5, .redirect cfg.successRedirect, none, none,
          [.callbackExchange, .userInfo tr.access_token]⟩
      | .error e =>
        ⟨some s2, .redirect (urlToString (callbackErrorUrl cfg.errorRedirect req e)),
          none, none, [.callbackExchange, .userInfo tr.access_token]⟩
    | .error e =>
      ⟨some s, .redirect (urlToString (callbackErrorUrl cfg.errorRedirect req e)),
        none, none, [.callbackExchange]⟩

/-- The config of `blitzwareLogout` after destructuring with defaults
(source lines 367-374). -/
structure LogoutConfig where
  redirectUrl : String
  accessTokenProperty : String
  refreshTokenProperty : String
  userProperty : String
  frontChannel : Bool
  deriving DecidableEq, Repr

/-- The defaults of `LogoutConfig`. -/
def defaultLogoutConfig : LogoutConfig :=
  ⟨"/", "accessToken", "refreshToken", "user", true⟩

/-- Models `baseUrl.replace(/\/$/, "")`: drop a single trailing slash. -/
def stripTrailingSlash (s : String) : String :=
  if s.endsWith "/" then s.dropRight 1 else s

/-- Embeds `blitzwareLogout` (source lines 356-449).  With a session present it
first nulls the token/user fields, then either renders the
front-channel logout page (no server-side network call) or makes the
best-effort back-channel `logout` call, swallowing its failure, and
redirects; without a session it just redirects. -/
def blitzwareLogout (cfg : LogoutConfig) (bw : BlitzWareAuthClient)
    (req : Req) : Outcome :=
  match req.session with
  | none => ⟨none, .redirect cfg.redirectUrl, none, none, []⟩
  | some s =>
    let s1 := clearAuthFields s cfg.accessTokenProperty
        cfg.refreshTokenProperty cfg.userProperty
    if cfg.frontChannel then
      let authBase := stripTrailingSlash bw.baseUrl
      ⟨some s1, .logoutPage (authBase ++ "/logout") bw.clientId cfg.redirectUrl,
        none, none, []⟩
    else
      match bw.logoutRemote with
      | .ok _ => ⟨some s1, .redirect cfg.redirectUrl, none, none, [.logoutCall]⟩
      | .error _ => ⟨some s1, .redirect cfg.redirectUrl, none, none, [.logoutCall]⟩

/-- Whether the whole success path of `blitzwareCallback` runs for this
request: the code exchange and the follow-up user-info fetch both
succeed.  Only then does the handler reach the lines that clear the
one-time state/verifier fields. -/
def callbackFullSuccess (cfg : CallbackConfig) (bw : BlitzWareAuthClient)
    (req : Req) (s : Session) : Bool :=
  match bw.handleCallback req.query (sget s cfg.stateProperty)
      (sget s cfg.codeVerifierProperty) with
  | .ok tr =>
    match bw.getUserInfo tr.access_token with
    | .ok _ => true
    | .error _ => false
  | .error _ => false

/-! Concrete fixtures used by witnesses and counterexamples. -/

def sampleUser : BlitzWareUser := ⟨"u1", "alice", none, none⟩

def freshUser : BlitzWareUser := ⟨"u2", "bob", some "bob@example.com", some ["user"]⟩

def refreshedTokens : TokenResponse :=
  ⟨"new-at", "Bearer", 3600, "read write", some "new-rt"⟩

def sessionWithTokens : Session :=
  [("accessToken", .str "old-at"), ("refreshToken", .str "old-rt"),
    ("user", .user sampleUser)]

def reqWithTokens : Req := ⟨some sessionWithTokens, [], "http", "localhost:3000"⟩

def sessionOnlyAccess : Session := [("accessToken", .str "old-at")]

def reqOnlyAccess : Req := ⟨some sessionOnlyAccess, [], "http", "localhost:3000"⟩

def sessionUserOnly : Session := [("user", .user sampleUser)]

def reqUserOnly : Req := ⟨some sessionUserOnly, [], "http", "localhost:3000"⟩

def reqNoSession : Req := ⟨none, [], "http", "localhost:3000"⟩

def sessionPendingLogin : Session :=
  [("oauthState", .str "abc"), ("codeVerifier", .str "ver")]

def reqCallback : Req :=
  ⟨some sessionPendingLogin, [("code", "auth-code"), ("state", "abc")],
    "http", "localhost:3000"⟩

/-- Oracle: token invalid, refresh succeeds, but the user-info fetch with
the fresh token fails. -/
def clientRefreshOkUserFail : BlitzWareAuthClient :=
  ⟨fun _ => .error (.bw "token_inactive" "Token is not active"),
    fun _ => .ok refreshedTokens,
    fun _ => .error (.bw "userinfo_failed" "Failed to get user information"),
    fun _ _ _ => .error (.bw "invalid_state" "State parameter mismatch"),
    .ok (), "https://auth.blitzware.xyz/api/auth", "client-1"⟩

/-- Oracle: every remote operation fails with its structured error. -/
def clientAllFail : BlitzWareAuthClient :=
  ⟨fun _ => .error (.bw "token_inactive" "Token is not active"),
    fun _ => .error (.bw "token_refresh_failed" "Failed to refresh token"),
    fun _ => .error (.bw "userinfo_failed" "Failed to get user information"),
    fun _ _ _ => .error (.bw "invalid_state" "State parameter mismatch"),
    .error (.bw "network_error" "Network connectivity issues"),
    "https://auth.blitzware.xyz/api/auth/", "client-1"⟩

/-- Oracle: token invalid, refresh and user-info both succeed. -/
def clientRefreshOkUserOk : BlitzWareAuthClient :=
  ⟨fun _ => .error (.bw "token_inactive" "Token is not active"),
    fun _ => .ok refreshedTokens,
    fun _ => .ok freshUser,
    fun _ _ _ => .ok refreshedTokens,
    .ok (), "https://auth.blitzware.xyz/api/auth", "client-1"⟩

/-- Oracle: the callback code exchange fails with a non-structured error. -/
def clientCallbackOtherFail : BlitzWareAuthClient :=
  ⟨fun _ => .error (.bw "token_inactive" "Token is not active"),
    fun _ => .error (.bw "token_refresh_failed" "Failed to refresh token"),
    fun _ => .error (.bw "userinfo_failed" "Failed to get user information"),
    fun _ _ _ => .error (.other "socket hang up"),
    .ok (), "https://auth.blitzware.xyz/api/auth", "client-1"⟩

/-- Logout config choosing the back-channel strategy. -/
def backChannelLogoutConfig : LogoutConfig :=
  ⟨"/", "accessToken", "refreshToken", "user", false⟩

/-! Basic algebra of session reads/writes and of query parameters. -/

theorem sget_sset_same : ∀ (s : Session) (k : String) (v : JSVal),
    sget (sset s k v) k = v
  | [], k, v => by simp [sset, sget]
  | (k1, v1) :: rest, k, v => by
    by_cases h : k1 = k
    · simp [sset, sget, h]
    · simp [sset, sget, h, sget_sset_same rest k v]

theorem sget_sset_ne : ∀ (s : Session) (k k2 : String) (v : JSVal),
    k ≠ k2 → sget (sset s k v) k2 = sget s k2
  | [], k, k2, v, h => by simp [sset, sget, h]
  | (k1, v1) :: rest, k, k2, v, h => by
    by_cases h1 : k1 = k
    · subst h1; simp [sset, sget, h]
    · simp [sset, sget, h1, sget_sset_ne rest k k2 v h]

theorem sget_clearAuthFields (s : Session) (a b c k : String)
    (h : k = a ∨ k = b ∨ k = c) :
    sget (clearAuthFields s a b c) k = .null := by
  unfold clearAuthFields
  rcases eq_or_ne c k with hc | hc
  · subst hc; exact sget_sset_same _ _ _
  · rw [sget_sset_ne _ c k _ hc]
    rcases eq_or_ne b k with hb | hb
    · subst hb; exact sget_sset_same _ _ _
    · rw [sget_sset_ne _ b k _ hb]
      rcases h with h | h | h
      · subst h; exact sget_sset_same _ _ _
      · exact absurd h.symm hb
      · exact absurd h.symm hc

theorem sget_sset_null_two (s : Session) (a b k : String)
    (h : k = a ∨ k = b) :
    sget (sset (sset s a .null) b .null) k = .null := by
  rcases eq_or_ne b k with hb | hb
  · subst hb; exact sget_sset_same _ _ _
  · rw [sget_sset_ne _ b k _ hb]
    rcases h with h | h
    · subst h; exact sget_sset_same _ _ _
    · exact absurd h.symm hb

theorem getParam_removeParam_ne : ∀ (ps : Params) (k k2 : String),
    k ≠ k2 → getParam (removeParam ps k) k2 = getParam ps k2
  | [], _, _, _ => rfl
  | (k1, v1) :: rest, k, k2, h => by
    by_cases h1 : k1 = k
    · simp [removeParam, getParam, h1, h, getParam_removeParam_ne rest k k2 h]
    · simp [removeParam, getParam, h1, getParam_removeParam_ne rest k k2 h]

theorem getParam_setParam_same : ∀ (ps : Params) (k v : String),
    getParam (setParam ps k v) k = some v
  | [], k, v => by simp [setParam, getParam]
  | (k1, v1) :: rest, k, v => by
    by_cases h : k1 = k
    · simp [setParam, getParam, h]
    · simp [setParam, getParam, h, getParam_setParam_same rest k v]

theorem getParam_setParam_ne : ∀ (ps : Params) (k k2 v : String),
    k ≠ k2 → getParam (setParam ps k v) k2 = getParam ps k2
  | [], k, k2, v, h => by simp [setParam, getParam, h]
  | (k1, v1) :: rest, k, k2, v, h => by
    by_cases h1 : k1 = k
    · subst h1
      simp [setParam, getParam, h, getParam_removeParam_ne rest k1 k2 h]
    · simp [setParam, getParam, h1, getParam_setParam_ne rest k k2 v h]

/-- Claim C1: the claim asserts that when validation fails, auto-refresh
succeeds but the follow-up user-info fetch fails, the middleware
responds with a server error and leaves accessToken/refreshToken/user
unchanged.  At this concrete input the code instead clears all three
fields and redirects to the login URL: the `catch (refreshError)`
block at line 130 also catches the `getUserInfo` rejection. -/
theorem C1_counterexample :
    (blitzwareAuth defaultAuthConfig clientRefreshOkUserFail reqWithTokens).action =
      .redirect "/login" ∧
    (blitzwareAuth defaultAuthConfig clientRefreshOkUserFail reqWithTokens).action ≠
      .send 500 "Authentication error" ∧
    sget sessionWithTokens "accessToken" = .str "old-at" ∧
    sget sessionWithTokens "refreshToken" = .str "old-rt" ∧
    (blitzwareAuth defaultAuthConfig clientRefreshOkUserFail reqWithTokens).session =
      some [("accessToken", .null), ("refreshToken", .null), ("user", .null)] := by
  decide

/-- Claim C1 (amended): when token validation fails, autoRefresh is on, a
refresh token is present, the refresh succeeds, but the follow-up
`getUserInfo` fails, `blitzwareAuth` clears the session token/user
fields (sets them to null) and redirects to the configured login URL,
exactly like the refresh-failure path — it does not respond with a
server error and does not leave the session unchanged. -/
theorem C1_theorem (cfg : BlitzWareMiddlewareConfig) (bw : BlitzWareAuthClient)
    (req : Req) (s : Session) (e e2 : JSError) (tr : TokenResponse)
    (hs : req.session = some s)
    (hat : truthy (sget s cfg.accessTokenProperty) = true)
    (hv : bw.validateTokenAndGetUser (sget s cfg.accessTokenProperty) = .error e)
    (har : cfg.autoRefresh = true)
    (hrt : truthy (sget s cfg.refreshTokenProperty) = true)
    (hr : bw.refreshToken (sget s cfg.refreshTokenProperty) = .ok tr)
    (hu : bw.getUserInfo tr.access_token = .error e2) :
    (blitzwareAuth cfg bw req).action = .redirect cfg.loginUrl ∧
    ∃ s3, (blitzwareAuth cfg bw req).session = some s3 ∧
      sget s3 cfg.accessTokenProperty = .null ∧
      sget s3 cfg.refreshTokenProperty = .null ∧
      sget s3 cfg.userProperty = .null := by
  simp only [blitzwareAuth, hs, hat, hv, har, hrt, hr, hu, Bool.true_and, if_true]
  exact ⟨trivial, _, rfl,
    sget_clearAuthFields _ _ _ _ _ (Or.inl rfl),
    sget_clearAuthFields _ _ _ _ _ (Or.inr (Or.inl rfl)),
    sget_clearAuthFields _ _ _ _ _ (Or.inr (Or.inr rfl))⟩

/-- Witness for C1_theorem at a concrete input. -/
theorem C1_witness :
    (blitzwareAuth defaultAuthConfig clientRefreshOkUserFail reqWithTokens).action =
      .redirect defaultAuthConfig.loginUrl ∧
    ∃ s3, (blitzwareAuth defaultAuthConfig clientRefreshOkUserFail reqWithTokens).session =
        some s3 ∧
      sget s3 defaultAuthConfig.accessTokenProperty = .null ∧
      sget s3 defaultAuthConfig.refreshTokenProperty = .null ∧
      sget s3 defaultAuthConfig.userProperty = .null :=
  C1_theorem defaultAuthConfig clientRefreshOkUserFail reqWithTokens sessionWithTokens
    (.bw "token_inactive" "Token is not active")
    (.bw "userinfo_failed" "Failed to get user information")
    refreshedTokens rfl (by decide) rfl rfl (by decide) rfl rfl

/-- Claim C2: the claim asserts that `blitzwareCallback` clears the
session's oauthState and codeVerifier fields both on success and on
failure.  At this concrete failing input (state mismatch rejected by
`handleCallback`) the handler leaves the session untouched: both
one-time fields still hold their values after the handler completes. -/
theorem C2_counterexample :
    (blitzwareCallback defaultCallbackConfig clientAllFail reqCallback).session =
      some sessionPendingLogin ∧
    sget sessionPendingLogin "oauthState" = .str "abc" ∧
    sget sessionPendingLogin "codeVerifier" = .str "ver" := by
  decide

/-- Claim C2 (amended): with a session present (and the one-time field
keys distinct from the token keys), `blitzwareCallback` clears
oauthState and codeVerifier exactly when the whole success path runs
(code exchange and user-info fetch both succeed); on any failure the
two fields keep the values they had when the handler started. -/
theorem C2_theorem (cfg : CallbackConfig) (bw : BlitzWareAuthClient) (req : Req)
    (s : Session)
    (hs : req.session = some s)
    (hsa : cfg.stateProperty ≠ cfg.accessTokenProperty)
    (hsr : cfg.stateProperty ≠ cfg.refreshTokenProperty)
    (hca : cfg.codeVerifierProperty ≠ cfg.accessTokenProperty)
    (hcr : cfg.codeVerifierProperty ≠ cfg.refreshTokenProperty) :
    ∃ s2, (blitzwareCallback cfg bw req).session = some s2 ∧
      (callbackFullSuccess cfg bw req s = true →
        sget s2 cfg.stateProperty = .null ∧
        sget s2 cfg.codeVerifierProperty = .null) ∧
      (callbackFullSuccess cfg bw req s = false →
        sget s2 cfg.stateProperty = sget s cfg.stateProperty ∧
        sget s2 cfg.codeVerifierProperty = sget s cfg.codeVerifierProperty) := by
  cases hc : bw.handleCallback req.query (sget s cfg.stateProperty)
      (sget s cfg.codeVerifierProperty) with
  | error e =>
    simp only [blitzwareCallback, callbackFullSuccess, hs, hc]
    exact ⟨s, rfl, fun h => Bool.noConfusion h, fun _ => ⟨rfl, rfl⟩⟩
  | ok tr =>
    cases hu : bw.getUserInfo tr.access_token with
    | ok user =>
      simp only [blitzwareCallback, callbackFullSuccess, hs, hc, hu]
      exact ⟨_, rfl,
        fun _ => ⟨sget_sset_null_two _ _ _ _ (Or.inl rfl),
          sget_sset_null_two _ _ _ _ (Or.inr rfl)⟩,
        fun h => Bool.noConfusion h⟩
    | error e =>
      simp only [blitzwareCallback, callbackFullSuccess, hs, hc, hu]
      refine ⟨_, rfl, fun h => Bool.noConfusion h, fun _ => ⟨?_, ?_⟩⟩
      · rcases Bool.eq_false_or_eq_true (optTruthy tr.refresh_token) with hb | hb
        · rw [hb, if_pos rfl, sget_sset_ne _ _ _ _ (Ne.symm hsr),
            sget_sset_ne _ _ _ _ (Ne.symm hsa)]
        · rw [hb, if_neg (fun h => Bool.noConfusion h),
            sget_sset_ne _ _ _ _ (Ne.symm hsa)]
      · rcases Bool.eq_false_or_eq_true (optTruthy tr.refresh_token) with hb | hb
        · rw [hb, if_pos rfl, sget_sset_ne _ _ _ _ (Ne.symm hcr),
            sget_sset_ne _ _ _ _ (Ne.symm hca)]
        · rw [hb, if_neg (fun h => Bool.noConfusion h),
            sget_sset_ne _ _ _ _ (Ne.symm hca)]

/-- Witness for C2_theorem at a concrete input (full success path). -/
theorem C2_witness :
    ∃ s2, (blitzwareCallback defaultCallbackConfig clientRefreshOkUserOk
        reqCallback).session = some s2 ∧
      (callbackFullSuccess defaultCallbackConfig clientRefreshOkUserOk
          reqCallback sessionPendingLogin = true →
        sget s2 defaultCallbackConfig.stateProperty = .null ∧
        sget s2 defaultCallbackConfig.codeVerifierProperty = .null) ∧
      (callbackFullSuccess defaultCallbackConfig clientRefreshOkUserOk
          reqCallback sessionPendingLogin = false →
        sget s2 defaultCallbackConfig.stateProperty =
          sget sessionPendingLogin defaultCallbackConfig.stateProperty ∧
        sget s2 defaultCallbackConfig.codeVerifierProperty =
          sget sessionPendingLogin defaultCallbackConfig.codeVerifierProperty) :=
  C2_theorem defaultCallbackConfig clientRefreshOkUserOk reqCallback
    sessionPendingLogin rfl (by decide) (by decide) (by decide) (by decide)

/-- Claim C3: whenever `blitzwareAuth` abandons authentication — token
validation fails and either autoRefresh is disabled, no (truthy)
refresh token is in the session, or the refresh call itself fails —
it nulls the accessToken, refreshToken and user session fields and
redirects to the configured login URL. -/
theorem C3_theorem (cfg : BlitzWareMiddlewareConfig) (bw : BlitzWareAuthClient)
    (req : Req) (s : Session) (e : JSError)
    (hs : req.session = some s)
    (hat : truthy (sget s cfg.accessTokenProperty) = true)
    (hv : bw.validateTokenAndGetUser (sget s cfg.accessTokenProperty) = .error e)
    (habandon : cfg.autoRefresh = false ∨
      truthy (sget s cfg.refreshTokenProperty) = false ∨
      ∃ e2, bw.refreshToken (sget s cfg.refreshTokenProperty) = .error e2) :
    (blitzwareAuth cfg bw req).action = .redirect cfg.loginUrl ∧
    ∃ s1, (blitzwareAuth cfg bw req).session = some s1 ∧
      sget s1 cfg.accessTokenProperty = .null ∧
      sget s1 cfg.refreshTokenProperty = .null ∧
      sget s1 cfg.userProperty = .null := by
  have hclear : ∀ s0 : Session, s0 = clearAuthFields s cfg.accessTokenProperty
        cfg.refreshTokenProperty cfg.userProperty →
      sget s0 cfg.accessTokenProperty = .null ∧
      sget s0 cfg.refreshTokenProperty = .null ∧
      sget s0 cfg.userProperty = .null := by
    rintro _ rfl
    exact ⟨sget_clearAuthFields _ _ _ _ _ (Or.inl rfl),
      sget_clearAuthFields _ _ _ _ _ (Or.inr (Or.inl rfl)),
      sget_clearAuthFields _ _ _ _ _ (Or.inr (Or.inr rfl))⟩
  rcases habandon with har | hrt | ⟨e2, hr⟩
  · simp only [blitzwareAuth, hs, hat, hv, har, Bool.false_and,
      Bool.false_eq_true, ite_true, ite_false]
    exact ⟨trivial, _, rfl, hclear _ rfl⟩
  · simp only [blitzwareAuth, hs, hat, hv, hrt, Bool.and_false,
      Bool.false_eq_true, ite_true, ite_false]
    exact ⟨trivial, _, rfl, hclear _ rfl⟩
  · rcases Bool.eq_false_or_eq_true cfg.autoRefresh with har | har
    · rcases Bool.eq_false_or_eq_true
          (truthy (sget s cfg.refreshTokenProperty)) with hrt | hrt
      · simp only [blitzwareAuth, hs, hat, hv, har, hrt, hr, Bool.and_self,
          Bool.false_eq_true, ite_true, ite_false]
        exact ⟨trivial, _, rfl, hclear _ rfl⟩
      · simp only [blitzwareAuth, hs, hat, hv, hrt, Bool.and_false,
          Bool.false_eq_true, ite_true, ite_false]
        exact ⟨trivial, _, rfl, hclear _ rfl⟩
    · simp only [blitzwareAuth, hs, hat, hv, har, Bool.false_and,
        Bool.false_eq_true, ite_true, ite_false]
      exact ⟨trivial, _, rfl, hclear _ rfl⟩

/-- Witness for C3_theorem at a concrete input: expired access token and
no refresh token in the session. -/
theorem C3_witness :
    (blitzwareAuth defaultAuthConfig clientAllFail reqOnlyAccess).action =
      .redirect defaultAuthConfig.loginUrl ∧
    ∃ s1, (blitzwareAuth defaultAuthConfig clientAllFail reqOnlyAccess).session =
        some s1 ∧
      sget s1 defaultAuthConfig.accessTokenProperty = .null ∧
      sget s1 defaultAuthConfig.refreshTokenProperty = .null ∧
      sget s1 defaultAuthConfig.userProperty = .null :=
  C3_theorem defaultAuthConfig clientAllFail reqOnlyAccess sessionOnlyAccess
    (.bw "token_inactive" "Token is not active") rfl (by decide) rfl
    (Or.inr (Or.inl (by decide)))

/-- Claim C4: with a session present but no (truthy) access token under
the configured key, `blitzwareAuth` redirects to the configured login
URL, makes no network call, performs no session mutation and attaches
nothing to the request. -/
theorem C4_theorem (cfg : BlitzWareMiddlewareConfig) (bw : BlitzWareAuthClient)
    (req : Req) (s : Session)
    (hs : req.session = some s)
    (hat : truthy (sget s cfg.accessTokenProperty) = false) :
    blitzwareAuth cfg bw req = ⟨some s, .redirect cfg.loginUrl, none, none, []⟩ := by
  simp [blitzwareAuth, hs, hat]

/-- Witness for C4_theorem at a concrete input. -/
theorem C4_witness :
    blitzwareAuth defaultAuthConfig clientAllFail reqUserOnly =
      ⟨some sessionUserOnly, .redirect defaultAuthConfig.loginUrl,
        none, none, []⟩ :=
  C4_theorem defaultAuthConfig clientAllFail reqUserOnly sessionUserOnly rfl
    (by decide)

/-- Claim C5: on the successful refresh path (validation fails,
autoRefresh on, truthy refresh token, refresh and user-info both
succeed) with attachUser on and distinct session keys,
`blitzwareAuth` stores the new access token, writes the fresh user
profile into the session, attaches both to the request and calls the
next handler. -/
theorem C5_theorem (cfg : BlitzWareMiddlewareConfig) (bw : BlitzWareAuthClient)
    (req : Req) (s : Session) (e : JSError) (tr : TokenResponse)
    (user : BlitzWareUser)
    (hs : req.session = some s)
    (hat : truthy (sget s cfg.accessTokenProperty) = true)
    (hv : bw.validateTokenAndGetUser (sget s cfg.accessTokenProperty) = .error e)
    (har : cfg.autoRefresh = true)
    (hrt : truthy (sget s cfg.refreshTokenProperty) = true)
    (hr : bw.refreshToken (sget s cfg.refreshTokenProperty) = .ok tr)
    (hu : bw.getUserInfo tr.access_token = .ok user)
    (hattach : cfg.attachUser = true)
    (hau : cfg.accessTokenProperty ≠ cfg.userProperty)
    (hra : cfg.refreshTokenProperty ≠ cfg.accessTokenProperty) :
    (blitzwareAuth cfg bw req).action = .next ∧
    (blitzwareAuth cfg bw req).blitzwareUser = some (.user user) ∧
    (blitzwareAuth cfg bw req).blitzwareAccessToken =
      some (.str tr.access_token) ∧
    ∃ s3, (blitzwareAuth cfg bw req).session = some s3 ∧
      sget s3 cfg.accessTokenProperty = .str tr.access_token ∧
      sget s3 cfg.userProperty = .user user := by
  simp only [blitzwareAuth, hs, hat, hv, har, hrt, hr, hu, hattach,
    Bool.true_and, if_true]
  refine ⟨trivial, trivial, trivial, _, rfl, ?_, sget_sset_same _ _ _⟩
  rw [sget_sset_ne _ _ _ _ (Ne.symm hau)]
  rcases Bool.eq_false_or_eq_true (optTruthy tr.refresh_token) with hb | hb
  · rw [hb, if_pos rfl, sget_sset_ne _ _ _ _ hra, sget_sset_same _ _ _]
  · rw [hb, if_neg (fun h => Bool.noConfusion h), sget_sset_same _ _ _]

/-- Witness for C5_theorem at a concrete input. -/
theorem C5_witness :
    (blitzwareAuth defaultAuthConfig clientRefreshOkUserOk reqWithTokens).action =
      .next ∧
    (blitzwareAuth defaultAuthConfig clientRefreshOkUserOk
        reqWithTokens).blitzwareUser = some (.user freshUser) ∧
    (blitzwareAuth defaultAuthConfig clientRefreshOkUserOk
        reqWithTokens).blitzwareAccessToken =
      some (.str refreshedTokens.access_token) ∧
    ∃ s3, (blitzwareAuth defaultAuthConfig clientRefreshOkUserOk
          reqWithTokens).session = some s3 ∧
      sget s3 defaultAuthConfig.accessTokenProperty =
        .str refreshedTokens.access_token ∧
      sget s3 defaultAuthConfig.userProperty = .user freshUser :=
  C5_theorem defaultAuthConfig clientRefreshOkUserOk reqWithTokens
    sessionWithTokens (.bw "token_inactive" "Token is not active")
    refreshedTokens freshUser rfl (by decide) rfl rfl (by decide) rfl rfl rfl
    (by decide) (by decide)

/-- Claim C6: when `req.session` is entirely absent, both `blitzwareAuth`
and `requireBlitzwareSession` respond with the 500 configuration-error
response (not a login redirect) and make no network call. -/
theorem C6_theorem (cfg : BlitzWareMiddlewareConfig) (rcfg : RequireSessionConfig)
    (bw : BlitzWareAuthClient) (req : Req)
    (hs : req.session = none) :
    blitzwareAuth cfg bw req =
      ⟨none, .send 500 "Session configuration error", none, none, []⟩ ∧
    requireBlitzwareSession rcfg req =
      ⟨none, .send 500 "Session configuration error", none, none, []⟩ := by
  simp [blitzwareAuth, requireBlitzwareSession, hs]

/-- Witness for C6_theorem at a concrete input. -/
theorem C6_witness :
    blitzwareAuth defaultAuthConfig clientAllFail reqNoSession =
      ⟨none, .send 500 "Session configuration error", none, none, []⟩ ∧
    requireBlitzwareSession defaultRequireSessionConfig reqNoSession =
      ⟨none, .send 500 "Session configuration error", none, none, []⟩ :=
  C6_theorem defaultAuthConfig defaultRequireSessionConfig clientAllFail
    reqNoSession rfl

/-- Claim C7: invoked with a populated session, `blitzwareLogout` nulls
the access token, refresh token and user session fields (this happens
unconditionally, before any remote interaction: no hypothesis on the
remote logout outcome is needed), and the user ends up redirected to
the configured destination under either strategy: front-channel
renders the logout page whose script always navigates to
`redirectUrl` while the server makes no network call; back-channel
redirects to `redirectUrl` whether or not the remote revocation
succeeded. -/
theorem C7_theorem (cfg : LogoutConfig) (bw : BlitzWareAuthClient) (req : Req)
    (s : Session)
    (hs : req.session = some s) :
    ∃ s1, (blitzwareLogout cfg bw req).session = some s1 ∧
      sget s1 cfg.accessTokenProperty = .null ∧
      sget s1 cfg.refreshTokenProperty = .null ∧
      sget s1 cfg.userProperty = .null ∧
      (cfg.frontChannel = true →
        (blitzwareLogout cfg bw req).action =
          .logoutPage (stripTrailingSlash bw.baseUrl ++ "/logout")
            bw.clientId cfg.redirectUrl ∧
        (blitzwareLogout cfg bw req).calls = []) ∧
      (cfg.frontChannel = false →
        (blitzwareLogout cfg bw req).action = .redirect cfg.redirectUrl) := by
  rcases Bool.eq_false_or_eq_true cfg.frontChannel with hfc | hfc
  · simp only [blitzwareLogout, hs, hfc, Bool.true_eq_false, ite_true]
    refine ⟨_, rfl, sget_clearAuthFields _ _ _ _ _ (Or.inl rfl),
      sget_clearAuthFields _ _ _ _ _ (Or.inr (Or.inl rfl)),
      sget_clearAuthFields _ _ _ _ _ (Or.inr (Or.inr rfl)), ?_, ?_⟩
    · simp
    · simp
  · cases hlr : bw.logoutRemote with
    | ok u =>
      simp only [blitzwareLogout, hs, hfc, Bool.false_eq_true, ite_false, hlr]
      refine ⟨_, rfl, sget_clearAuthFields _ _ _ _ _ (Or.inl rfl),
        sget_clearAuthFields _ _ _ _ _ (Or.inr (Or.inl rfl)),
        sget_clearAuthFields _ _ _ _ _ (Or.inr (Or.inr rfl)), ?_, ?_⟩
      · simp
      · simp
    | error e =>
      simp only [blitzwareLogout, hs, hfc, Bool.false_eq_true, ite_false, hlr]
      refine ⟨_, rfl, sget_clearAuthFields _ _ _ _ _ (Or.inl rfl),
        sget_clearAuthFields _ _ _ _ _ (Or.inr (Or.inl rfl)),
        sget_clearAuthFields _ _ _ _ _ (Or.inr (Or.inr rfl)), ?_, ?_⟩
      · simp
      · simp

/-- Witness for C7_theorem at a concrete input: back-channel strategy
with a failing remote revocation call. -/
theorem C7_witness :
    ∃ s1, (blitzwareLogout backChannelLogoutConfig clientAllFail
        reqWithTokens).session = some s1 ∧
      sget s1 backChannelLogoutConfig.accessTokenProperty = .null ∧
      sget s1 backChannelLogoutConfig.refreshTokenProperty = .null ∧
      sget s1 backChannelLogoutConfig.userProperty = .null ∧
      (backChannelLogoutConfig.frontChannel = true →
        (blitzwareLogout backChannelLogoutConfig clientAllFail
            reqWithTokens).action =
          .logoutPage (stripTrailingSlash clientAllFail.baseUrl ++ "/logout")
            clientAllFail.clientId backChannelLogoutConfig.redirectUrl ∧
        (blitzwareLogout backChannelLogoutConfig clientAllFail
            reqWithTokens).calls = []) ∧
      (backChannelLogoutConfig.frontChannel = false →
        (blitzwareLogout backChannelLogoutConfig clientAllFail
            reqWithTokens).action = .redirect backChannelLogoutConfig.redirectUrl) :=
  C7_theorem backChannelLogoutConfig clientAllFail reqWithTokens
    sessionWithTokens rfl

/-- Claim C8: whenever `blitzwareCallback` fails with a structured
`BlitzWareAuthError` — from the code exchange or from the follow-up
user-info fetch — it redirects to the configured failure location
with `error_code = code` set as a query parameter, and the redirect
URL depends on the error only through its code: the raw message never
reaches the URL (the URL built for the same code with the empty
message is identical). -/
theorem C8_theorem (cfg : CallbackConfig) (bw : BlitzWareAuthClient) (req : Req)
    (s : Session) (code msg : String)
    (hs : req.session = some s)
    (hfail : bw.handleCallback req.query (sget s cfg.stateProperty)
        (sget s cfg.codeVerifierProperty) = .error (.bw code msg) ∨
      ∃ tr, bw.handleCallback req.query (sget s cfg.stateProperty)
          (sget s cfg.codeVerifierProperty) = .ok tr ∧
        bw.getUserInfo tr.access_token = .error (.bw code msg)) :
    (blitzwareCallback cfg bw req).action =
      .redirect (urlToString (callbackErrorUrl cfg.errorRedirect req
        (.bw code msg))) ∧
    getParam (callbackErrorUrl cfg.errorRedirect req (.bw code msg)).params
      "error_code" = some code ∧
    urlToString (callbackErrorUrl cfg.errorRedirect req (.bw code msg)) =
      urlToString (callbackErrorUrl cfg.errorRedirect req (.bw code "")) := by
  refine ⟨?_, ?_, rfl⟩
  · rcases hfail with hc | ⟨tr, hc, hu⟩
    · simp [blitzwareCallback, hs, hc]
    · simp [blitzwareCallback, hs, hc, hu]
  · show getParam (setParam (resolveUrl cfg.errorRedirect (reqOrigin req)).params
      "error_code" code) "error_code" = some code
    exact getParam_setParam_same _ _ _

/-- Witness for C8_theorem at a concrete input: a state mismatch
(`invalid_state`) under the default error redirect. -/
theorem C8_witness :
    (blitzwareCallback defaultCallbackConfig clientAllFail reqCallback).action =
      .redirect (urlToString (callbackErrorUrl
        defaultCallbackConfig.errorRedirect reqCallback
        (.bw "invalid_state" "State parameter mismatch"))) ∧
    getParam (callbackErrorUrl defaultCallbackConfig.errorRedirect reqCallback
      (.bw "invalid_state" "State parameter mismatch")).params "error_code" =
      some "invalid_state" ∧
    urlToString (callbackErrorUrl defaultCallbackConfig.errorRedirect
      reqCallback (.bw "invalid_state" "State parameter mismatch")) =
      urlToString (callbackErrorUrl defaultCallbackConfig.errorRedirect
        reqCallback (.bw "invalid_state" "")) :=
  C8_theorem defaultCallbackConfig clientAllFail reqCallback sessionPendingLogin
    "invalid_state" "State parameter mismatch" rfl (Or.inl rfl)

/-- Claim C9: on the successful refresh path, when the refresh response
carries no (truthy) refresh_token the session's refreshToken field is
left exactly as it was, while the accessToken field is overwritten
with the new access token; when a non-empty refresh_token is present
it overwrites the stored one. -/
theorem C9_theorem (cfg : BlitzWareMiddlewareConfig) (bw : BlitzWareAuthClient)
    (req : Req) (s : Session) (e : JSError) (tr : TokenResponse)
    (user : BlitzWareUser)
    (hs : req.session = some s)
    (hat : truthy (sget s cfg.accessTokenProperty) = true)
    (hv : bw.validateTokenAndGetUser (sget s cfg.accessTokenProperty) = .error e)
    (har : cfg.autoRefresh = true)
    (hrt : truthy (sget s cfg.refreshTokenProperty) = true)
    (hr : bw.refreshToken (sget s cfg.refreshTokenProperty) = .ok tr)
    (hu : bw.getUserInfo tr.access_token = .ok user)
    (hra : cfg.refreshTokenProperty ≠ cfg.accessTokenProperty)
    (hru : cfg.refreshTokenProperty ≠ cfg.userProperty)
    (hau : cfg.accessTokenProperty ≠ cfg.userProperty) :
    ∃ s3, (blitzwareAuth cfg bw req).session = some s3 ∧
      (optTruthy tr.refresh_token = false →
        sget s3 cfg.refreshTokenProperty = sget s cfg.refreshTokenProperty) ∧
      (optTruthy tr.refresh_token = true →
        sget s3 cfg.refreshTokenProperty = .str (tr.refresh_token.getD "")) ∧
      sget s3 cfg.accessTokenProperty = .str tr.access_token := by
  simp only [blitzwareAuth, hs, hat, hv, har, hrt, hr, hu, Bool.true_and,
    ite_true]
  refine ⟨_, rfl, ?_, ?_, ?_⟩
  · intro hb
    rw [sget_sset_ne _ _ _ _ (Ne.symm hru), hb,
      if_neg (fun h => Bool.noConfusion h),
      sget_sset_ne _ _ _ _ (Ne.symm hra)]
  · intro hb
    rw [sget_sset_ne _ _ _ _ (Ne.symm hru), hb, if_pos rfl,
      sget_sset_same _ _ _]
  · rw [sget_sset_ne _ _ _ _ (Ne.symm hau)]
    rcases Bool.eq_false_or_eq_true (optTruthy tr.refresh_token) with hb | hb
    · rw [hb, if_pos rfl, sget_sset_ne _ _ _ _ hra, sget_sset_same _ _ _]
    · rw [hb, if_neg (fun h => Bool.noConfusion h), sget_sset_same _ _ _]

/-- Witness for C9_theorem at a concrete input (a new refresh token is
issued and overwrites the stored one). -/
theorem C9_witness :
    ∃ s3, (blitzwareAuth defaultAuthConfig clientRefreshOkUserOk
        reqWithTokens).session = some s3 ∧
      (optTruthy refreshedTokens.refresh_token = false →
        sget s3 defaultAuthConfig.refreshTokenProperty =
          sget sessionWithTokens defaultAuthConfig.refreshTokenProperty) ∧
      (optTruthy refreshedTokens.refresh_token = true →
        sget s3 defaultAuthConfig.refreshTokenProperty =
          .str (refreshedTokens.refresh_token.getD "")) ∧
      sget s3 defaultAuthConfig.accessTokenProperty =
        .str refreshedTokens.access_token :=
  C9_theorem defaultAuthConfig clientRefreshOkUserOk reqWithTokens
    sessionWithTokens (.bw "token_inactive" "Token is not active")
    refreshedTokens freshUser rfl (by decide) rfl rfl (by decide) rfl rfl
    (by decide) (by decide) (by decide)

/-- Claim C10: when `blitzwareCallback` fails with an error that is not a
`BlitzWareAuthError`, the redirect to the failure location carries
`error = auth_failed` (no `error_code` parameter is added: when the
configured failure location itself has no error_code parameter, the
final URL has none either). -/
theorem C10_theorem (cfg : CallbackConfig) (bw : BlitzWareAuthClient) (req : Req)
    (s : Session) (msg : String)
    (hs : req.session = some s)
    (hfail : bw.handleCallback req.query (sget s cfg.stateProperty)
        (sget s cfg.codeVerifierProperty) = .error (.other msg) ∨
      ∃ tr, bw.handleCallback req.query (sget s cfg.stateProperty)
          (sget s cfg.codeVerifierProperty) = .ok tr ∧
        bw.getUserInfo tr.access_token = .error (.other msg)) :
    (blitzwareCallback cfg bw req).action =
      .redirect (urlToString (callbackErrorUrl cfg.errorRedirect req
        (.other msg))) ∧
    getParam (callbackErrorUrl cfg.errorRedirect req (.other msg)).params
      "error" = some "auth_failed" ∧
    (getParam (resolveUrl cfg.errorRedirect (reqOrigin req)).params
        "error_code" = none →
      getParam (callbackErrorUrl cfg.errorRedirect req (.other msg)).params
        "error_code" = none) := by
  refine ⟨?_, ?_, ?_⟩
  · rcases hfail with hc | ⟨tr, hc, hu⟩
    · simp [blitzwareCallback, hs, hc]
    · simp [blitzwareCallback, hs, hc, hu]
  · show getParam (setParam (resolveUrl cfg.errorRedirect (reqOrigin req)).params
      "error" "auth_failed") "error" = some "auth_failed"
    exact getParam_setParam_same _ _ _
  · intro hnone
    show getParam (setParam (resolveUrl cfg.errorRedirect (reqOrigin req)).params
      "error" "auth_failed") "error_code" = none
    rw [getParam_setParam_ne _ _ _ _ (by decide)]
    exact hnone

/-- Witness for C10_theorem at a concrete input: a non-structured
transport error under the default error redirect (which already
carries `error=auth_failed` and no error_code). -/
theorem C10_witness :
    (blitzwareCallback defaultCallbackConfig clientCallbackOtherFail
        reqCallback).action =
      .redirect (urlToString (callbackErrorUrl
        defaultCallbackConfig.errorRedirect reqCallback
        (.other "socket hang up"))) ∧
    getParam (callbackErrorUrl defaultCallbackConfig.errorRedirect reqCallback
      (.other "socket hang up")).params "error" = some "auth_failed" ∧
    (getParam (resolveUrl defaultCallbackConfig.errorRedirect
        (reqOrigin reqCallback)).params "error_code" = none →
      getParam (callbackErrorUrl defaultCallbackConfig.errorRedirect reqCallback
        (.other "socket hang up")).params "error_code" = none) :=
  C10_theorem defaultCallbackConfig clientCallbackOtherFail reqCallback
    sessionPendingLogin "socket hang up" rfl (Or.inl rfl)

end BlitzWare
